import Mathlib

/-!
Shallow embedding of `flexget/terminal.py`: the context-scoped console
output register (`capture_console`, `get_console_output`, `console`,
`_patchable_console`), the `TerminalTable` class (`_init_table`,
`__rich_console__`), `word_wrap` (together with a model of Python's
`textwrap.wrap` with its default options, which `word_wrap` delegates to)
and `colorize`.  Python exceptions are modelled by `Except PyErr`;
machine-level streams (`TextIO` objects) are modelled by an abstract
identifier type `FileLike`.
-/

namespace Flexget

/-- Python exception kinds this module can surface. -/
inductive PyErr where
  | keyError (key : String)
  | indexError
  | valueError (msg : String)
  | terminalTableError (msg : String)
  | ioError (msg : String)
  deriving DecidableEq, Repr

/-- `True` exactly for the `TerminalTableError` exception class defined in
`terminal.py` (`class TerminalTableError(Exception)`). -/
def isTerminalTableError : PyErr → Bool
  | PyErr.terminalTableError _ => true
  | _ => false

/-- An abstract handle for a Python `TextIO` stream (`filelike`). -/
structure FileLike where
  id : Nat
  deriving DecidableEq, Repr

/-- The module-level mutable state of `terminal.py` as seen from one
execution context: the `local_context.output` attribute (absent = `none`,
present with value `v` = `some v`; the stored value is itself optional
because the code may store `None` back), the `rich_console.file`
attribute, and a log of every backend `rich_console.print` call together
with the `rich_console.file` value in effect when it ran. -/
structure TermState where
  localOutput : Option (Option FileLike)
  consoleFile : Option FileLike
  printed : List (Option FileLike × String)
  deriving DecidableEq, Repr

/-- The state at process start: no override attribute was ever set,
`rich_console.file` is `None`, nothing printed. -/
def initState : TermState :=
  { localOutput := none, consoleFile := none, printed := [] }

/-- `get_console_output`: `return getattr(local_context, 'output', None)`. -/
def get_console_output (s : TermState) : Option FileLike :=
  match s.localOutput with
  | none => none
  | some v => v

/-- `get_console_output` as a state transition (it is a plain attribute
read, so it returns the state unchanged and cannot raise). -/
def get_console_output_op (s : TermState) : Option FileLike × TermState :=
  (get_console_output s, s)

/-- `capture_console(filelike)` used as a context manager around `body`:
saves `old_output = get_console_output()`, sets
`local_context.output = filelike`, runs the body, and in a `finally`
block sets `local_context.output = old_output`.  The body is an arbitrary
state transition that may raise (covering nested `capture_console`
scopes, `console` calls and direct mutation alike). -/
def capture_console (filelike : FileLike)
    (body : TermState → Except PyErr Unit × TermState) (s : TermState) :
    Except PyErr Unit × TermState :=
  let old_output := get_console_output s
  let s1 := { s with localOutput := some (some filelike) }
  let res := body s1
  (res.1, { res.2 with localOutput := some old_output })

/-- `_patchable_console(text)`: sets `rich_console.file` to the current
context's override, calls `rich_console.print(text)`, and in a `finally`
block sets `rich_console.file = None`.  The backend `rich_console.print`
is external (the `rich` library); it is modelled by the oracle
`printImpl`, which given the destination in effect and the text says
whether the underlying write raises (`some e`) or succeeds (`none`).
Each backend call is appended to the log with the destination in effect. -/
def patchable_console (printImpl : Option FileLike → String → Option PyErr)
    (text : String) (s : TermState) : Except PyErr Unit × TermState :=
  let s1 := { s with consoleFile := get_console_output s }
  let s2 := { s1 with printed := s1.printed ++ [(s1.consoleFile, text)] }
  let r : Except PyErr Unit :=
    match printImpl s1.consoleFile text with
    | some e => Except.error e
    | none => Except.ok ()
  (r, { s2 with consoleFile := none })

/-- `console(text)`: delegates to `_patchable_console`. -/
def console (printImpl : Option FileLike → String → Option PyErr)
    (text : String) (s : TermState) : Except PyErr Unit × TermState :=
  patchable_console printImpl text s

/-! ## TerminalTable -/

/-- The `rich.box` border styles referenced by `TABLE_TYPES`. -/
inductive BoxKind where
  | asciiBox
  | porcelainBox
  | squareBox
  | doubleBox
  | githubBox
  deriving DecidableEq, Repr

/-- One entry of `TABLE_TYPES`: keyword arguments forwarded to
`rich.table.Table` (`box`, and `show_edge` which defaults to `True`). -/
structure TableStyle where
  box : BoxKind
  show_edge : Bool
  deriving DecidableEq, Repr

/-- `TerminalTable.TABLE_TYPES`, in source order. -/
def TABLE_TYPES : List (String × TableStyle) :=
  [("plain", { box := BoxKind.asciiBox, show_edge := true }),
   ("porcelain", { box := BoxKind.porcelainBox, show_edge := false }),
   ("single", { box := BoxKind.squareBox, show_edge := true }),
   ("double", { box := BoxKind.doubleBox, show_edge := true }),
   ("github", { box := BoxKind.githubBox, show_edge := true })]

/-- Python dict lookup `TABLE_TYPES[key]` without the raise. -/
def lookupStyle (key : String) : Option TableStyle :=
  (TABLE_TYPES.find? (fun p => p.1 = key)).map Prod.snd

/-- The `rich.table.Table` built by `_init_table`: title, style keyword
arguments, one `add_column` per entry of the header row, one `add_row`
per remaining row. -/
structure RichTable where
  title : Option String
  style : TableStyle
  columns : List String
  rows : List (List String)
  deriving DecidableEq, Repr

/-- `TerminalTable._init_table`:
`rich.table.Table(title=self.title, **self.TABLE_TYPES[self.type])`
raising `KeyError` for an unknown type, then `self.table_data[0]`
(raising `IndexError` on an empty list) supplies the columns and
`self.table_data[1:]` the rows. -/
def init_table (ty : String) (table_data : List (List String))
    (title : Option String) : Except PyErr RichTable :=
  match lookupStyle ty with
  | none => Except.error (PyErr.keyError ty)
  | some st =>
    match table_data with
    | [] => Except.error PyErr.indexError
    | header :: rest =>
      Except.ok { title := title, style := st, columns := header, rows := rest }

/-- The `TerminalTable` object after a successful `__init__`. -/
structure TerminalTable where
  title : Option String
  table_data : List (List String)
  type : String
  table : RichTable
  deriving DecidableEq, Repr

/-- `TerminalTable.__init__(table_type, table_data, title, wrap_columns,
drop_columns)`: stores `title`, `table_data` and `table_type` and calls
`_init_table`.  The `wrap_columns` and `drop_columns` parameters are
accepted but, exactly as in the source, never read. -/
def TerminalTable_init (table_type : String) (table_data : List (List String))
    (title : Option String) (wrap_columns : Option (List Nat))
    (drop_columns : Option (List Nat)) : Except PyErr TerminalTable :=
  match init_table table_type table_data title with
  | Except.error e => Except.error e
  | Except.ok t =>
    Except.ok { title := title, table_data := table_data, type := table_type,
                table := t }

/-! ## word_wrap and a model of Python textwrap.wrap

`word_wrap` delegates to `textwrap.wrap` from the Python standard
library with its default options (`expand_tabs=True`,
`replace_whitespace=True`, `drop_whitespace=True`,
`break_long_words=True`).  The model below follows CPython's
`TextWrapper` with one simplification, noted at `handleLongWord`:
`break_on_hyphens` splitting is omitted; it can only split chunks
further / move a break earlier and never lengthens an output line. -/

/-- The whitespace characters of Python `str.strip()` / `textwrap`
munging for ASCII text: tab, newline, vertical tab, form feed, carriage
return and space. -/
def isPyWs (c : Char) : Bool :=
  c = '\t' || c = '\n' || c = Char.ofNat 11 || c = Char.ofNat 12 || c = '\r' || c = ' '

/-- Python `str.expandtabs()` with tab size 8: each tab becomes the
spaces needed to reach the next multiple of 8; the column counter resets
after a newline or carriage return. -/
def expandTabs : List Char → Nat → List Char
  | [], _ => []
  | c :: cs, col =>
    if c = '\t' then
      List.replicate (8 - col % 8) ' ' ++ expandTabs cs (col + (8 - col % 8))
    else if c = '\n' || c = '\r' then c :: expandTabs cs 0
    else c :: expandTabs cs (col + 1)

/-- `TextWrapper._munge_whitespace`: expand tabs, then replace every
whitespace character with a single space. -/
def mungeWhitespace (text : List Char) : List Char :=
  (expandTabs text 0).map (fun c => if isPyWs c then ' ' else c)

/-- Helper for `splitChunks`: extend the current maximal run of
characters of the same class (space / non-space). -/
def splitChunksGo (cls : Bool) (cur : List Char) : List Char → List (List Char)
  | [] => [cur.reverse]
  | c :: cs =>
    if (c == ' ') = cls then splitChunksGo cls (c :: cur) cs
    else cur.reverse :: splitChunksGo (c == ' ') [c] cs

/-- `TextWrapper._split` on munged text: maximal runs of spaces
alternate with maximal runs of non-spaces (after munging, the only
whitespace character left is the space). -/
def splitChunks : List Char → List (List Char)
  | [] => []
  | c :: cs => splitChunksGo (c == ' ') [c] cs

/-- `chunk.strip() == ''`: the chunk consists of whitespace only. -/
def isSpaceChunk (l : List Char) : Bool :=
  l.all isPyWs

/-- Total length of the chunks on the current line (`cur_len`). -/
def sumLen (l : List (List Char)) : Nat :=
  (l.map List.length).sum

/-- The inner greedy loop of `TextWrapper._wrap_chunks`: move chunks
onto the current line while `cur_len + len(chunk) <= width`; returns the
chunks taken and the chunks remaining. -/
def takeFit (width : Nat) (curLen : Nat) : List (List Char) → List (List Char) × List (List Char)
  | [] => ([], [])
  | c :: cs =>
    if curLen + c.length ≤ width then
      let r := takeFit width (curLen + c.length) cs
      (c :: r.1, r.2)
    else ([], c :: cs)

/-- `TextWrapper._handle_long_word` with `break_long_words=True`: break
the head chunk at `space_left` (`1` when `width < 1`, else
`width - cur_len`), putting the first part on the current line and the
rest back at the front of the chunk list.  The `break_on_hyphens`
refinement (breaking at the last hyphen before `space_left` instead) is
omitted; it only moves the break earlier. -/
def handleLongWord (width curLen : Nat) (cur : List (List Char)) :
    List (List Char) → List (List Char) × List (List Char)
  | [] => (cur, [])
  | c :: cs =>
    let spaceLeft := if width < 1 then 1 else width - curLen
    (cur ++ [c.take spaceLeft], c.drop spaceLeft :: cs)

/-- With `drop_whitespace=True`: delete a trailing all-whitespace chunk
from the finished line. -/
def dropTrailingWs (cur : List (List Char)) : List (List Char) :=
  match cur.getLast? with
  | some c => if isSpaceChunk c then cur.dropLast else cur
  | none => cur

/-- The body of one iteration of the outer loop of
`TextWrapper._wrap_chunks` after the leading-whitespace drop: fill the
line greedily, break a too-long head chunk (only when the next chunk is
strictly longer than the whole width), drop trailing whitespace.
Returns the chunks of the built line and the remaining chunks. -/
def buildLine (width : Nat) (chunks1 : List (List Char)) :
    List (List Char) × List (List Char) :=
  let fit := takeFit width 0 chunks1
  let handled :=
    match fit.2 with
    | [] => fit
    | d :: _ =>
      if width < d.length then handleLongWord width (sumLen fit.1) fit.1 fit.2 else fit
  (dropTrailingWs handled.1, handled.2)

/-- One iteration of the outer loop of `TextWrapper._wrap_chunks`:
optionally drop a leading whitespace chunk (only once some line was
already emitted, Python's `lines` being non-empty), then build the
line. -/
def wrapStep (width : Nat) (chunks : List (List Char)) (started : Bool) :
    List (List Char) × List (List Char) :=
  match chunks with
  | [] => ([], [])
  | c :: cs =>
    buildLine width (if started && isSpaceChunk c then cs else c :: cs)

/-- The outer loop of `TextWrapper._wrap_chunks`: one line per
iteration, skipping iterations whose line came out empty.  `fuel` bounds
the number of iterations; the value passed by `pyWrap` suffices for its
inputs. -/
def wrapLoop (width : Nat) : Nat → List (List Char) → Bool → List (List Char)
  | 0, _, _ => []
  | _ + 1, [], _ => []
  | fuel + 1, c :: cs, started =>
    let step := wrapStep width (c :: cs) started
    if step.1.isEmpty then wrapLoop width fuel step.2 started
    else step.1.flatten :: wrapLoop width fuel step.2 true

/-- Python `textwrap.wrap(text, width)` with default options: raises
`ValueError` when `width <= 0` (width being a `Nat` here, that is
`width = 0`), otherwise munges whitespace, splits into chunks and fills
greedily. -/
def pyWrap (width : Nat) (text : List Char) : Except PyErr (List (List Char)) :=
  if width = 0 then Except.error (PyErr.valueError "invalid width 0 (must be > 0)")
  else
    let chunks := splitChunks (mungeWhitespace text)
    Except.ok (wrapLoop width (sumLen chunks + chunks.length + 1) chunks false)

/-- `word_wrap(text, max_length)`: when `len(text) >= max_length`,
return `'\n'.join(wrap(text, max_length))`, otherwise the text
unchanged. -/
def word_wrap (text : String) (max_length : Nat) : Except PyErr String :=
  if max_length ≤ text.length then
    match pyWrap max_length text.data with
    | Except.error e => Except.error e
    | Except.ok ls => Except.ok (String.mk (List.intercalate ['\n'] ls))
  else Except.ok text

/-! ## colorize -/

/-- `colorize(color, text)`: `return f'[{color}]{text}[/]'`.  The body
is unconditional; in particular it consults no terminal or TTY state
(the docstring's "When output isn't TTY just return text" has no
counterpart in the code). -/
def colorize (color : String) (text : String) : String :=
  "[" ++ color ++ "]" ++ text ++ "[/]"

/-! ## TerminalTable.__rich_console__ (porcelain / github branch)

Segments are modelled by their text (`rich.segment.Segment.text`) as a
character list; styles and control codes play no part in the blank-line
test. -/

/-- A segment's text. -/
abbrev SegText := List Char

/-- `seg.text.strip()` is truthy: some character is not whitespace. -/
def hasNonWs (s : SegText) : Bool :=
  s.any (fun c => !(isPyWs c))

/-- `text.split('\n')`: the pieces of the text between newlines (the
semantics of the `str.partition('\n')` loop in
`rich.segment.Segment.split_lines`). -/
def splitOnNl : SegText → List SegText
  | [] => [[]]
  | c :: cs =>
    if c = '\n' then [] :: splitOnNl cs
    else
      match splitOnNl cs with
      | [] => [[c]]
      | p :: ps => (c :: p) :: ps

/-- Helper for `split_lines`: feed the pieces of one segment's text
split at `'\n'` into the current line; a finished line is emitted at
every newline and empty pieces are skipped, as in
`rich.segment.Segment.split_lines`. -/
def addParts (acc : List SegText) : List SegText → List (List SegText) × List SegText
  | [] => ([], acc)
  | [p] => ([], if p = [] then acc else acc ++ [p])
  | p :: p2 :: ps =>
    let acc1 := if p = [] then acc else acc ++ [p]
    let r := addParts [] (p2 :: ps)
    (acc1 :: r.1, r.2)

/-- `rich.segment.Segment.split_lines(segments)` on segment texts:
segments without a newline are appended to the current line unsplit;
segments with newlines are split and flushed; the trailing line is
always yielded (possibly empty). -/
def split_lines (acc : List SegText) : List SegText → List (List SegText)
  | [] => [acc]
  | seg :: rest =>
    if seg.any (fun c => c = '\n') then
      let r := addParts acc (splitOnNl seg)
      r.1 ++ split_lines r.2 rest
    else split_lines (acc ++ [seg]) rest

/-- The filtering loop of `TerminalTable.__rich_console__` for the
`porcelain`/`github` types: keep only the lines where some segment has
non-whitespace text (`if any(seg.text.strip() for seg in line)`). -/
def keepNonBlank : List (List SegText) → List (List SegText)
  | [] => []
  | line :: rest =>
    if line.any hasNonWs then line :: keepNonBlank rest
    else keepNonBlank rest

/-- `TerminalTable.__rich_console__` for the `porcelain`/`github`
types, modelled line-by-line: split the backend's segments into lines
and yield each non-blank line (the source follows each with a newline
segment). -/
def rich_console_lines (segments : List SegText) : List (List SegText) :=
  keepNonBlank (split_lines [] segments)

/-! ## Helper lemmas -/

theorem takeFit_fst_sum_le (width : Nat) :
    ∀ (cs : List (List Char)) (curLen : Nat), curLen ≤ width →
      curLen + sumLen (takeFit width curLen cs).1 ≤ width := by
  intro cs
  induction cs with
  | nil => intro curLen h; simpa [takeFit, sumLen] using h
  | cons c cs ih =>
    intro curLen h
    by_cases hfit : curLen + c.length ≤ width
    · have hrec := ih (curLen + c.length) hfit
      simp only [takeFit, if_pos hfit, sumLen, List.map_cons, List.sum_cons] at *
      omega
    · simp only [takeFit, if_neg hfit, sumLen, List.map_nil, List.sum_nil]
      omega

theorem handleLongWord_fst_sum_le (width : Nat) (cur : List (List Char))
    (rest : List (List Char)) (hw : 1 ≤ width) (hcur : sumLen cur ≤ width) :
    sumLen (handleLongWord width (sumLen cur) cur rest).1 ≤ width := by
  cases rest with
  | nil => simpa [handleLongWord] using hcur
  | cons c cs =>
    have hnot : ¬ width < 1 := by omega
    simp only [handleLongWord, if_neg hnot, sumLen, List.map_append, List.sum_append,
      List.map_cons, List.map_nil, List.sum_cons, List.sum_nil, List.length_take] at *
    omega

theorem sumLen_take_le (n : Nat) (l : List (List Char)) :
    sumLen (l.take n) ≤ sumLen l := by
  induction l generalizing n with
  | nil => simp [sumLen]
  | cons a t ih =>
    cases n with
    | zero => simp [sumLen]
    | succ n =>
      simp only [List.take, sumLen, List.map_cons, List.sum_cons]
      have := ih n
      simp only [sumLen] at this
      omega

theorem dropTrailingWs_sum_le (cur : List (List Char)) :
    sumLen (dropTrailingWs cur) ≤ sumLen cur := by
  unfold dropTrailingWs
  cases h : cur.getLast? with
  | none => simp
  | some c =>
    by_cases hs : isSpaceChunk c
    · simpa [hs, List.dropLast_eq_take] using sumLen_take_le (cur.length - 1) cur
    · simp [hs]

theorem buildLine_fst_sum_le (width : Nat) (chunks1 : List (List Char)) (hw : 1 ≤ width) :
    sumLen (buildLine width chunks1).1 ≤ width := by
  have hfit : sumLen (takeFit width 0 chunks1).1 ≤ width := by
    have := takeFit_fst_sum_le width chunks1 0 (Nat.zero_le _)
    omega
  unfold buildLine
  refine le_trans (dropTrailingWs_sum_le _) ?_
  cases h2 : (takeFit width 0 chunks1).2 with
  | nil => simpa [h2] using hfit
  | cons d ds =>
    by_cases hd : width < d.length
    · simpa [h2, hd] using handleLongWord_fst_sum_le width _ (d :: ds) hw hfit
    · simpa [h2, hd] using hfit

theorem wrapStep_fst_sum_le (width : Nat) (chunks : List (List Char)) (started : Bool)
    (hw : 1 ≤ width) : sumLen (wrapStep width chunks started).1 ≤ width := by
  cases chunks with
  | nil => simp [wrapStep, sumLen]
  | cons c cs => exact buildLine_fst_sum_le width _ hw

theorem wrapLoop_line_le (width : Nat) (hw : 1 ≤ width) :
    ∀ (fuel : Nat) (chunks : List (List Char)) (started : Bool),
      ∀ l ∈ wrapLoop width fuel chunks started, l.length ≤ width := by
  intro fuel
  induction fuel with
  | zero => intro chunks started l hl; simp [wrapLoop] at hl
  | succ fuel ih =>
    intro chunks started l hl
    cases chunks with
    | nil => simp [wrapLoop] at hl
    | cons c cs =>
      simp only [wrapLoop] at hl
      by_cases he : (wrapStep width (c :: cs) started).1.isEmpty
      · rw [if_pos he] at hl
        exact ih _ _ l hl
      · rw [if_neg he] at hl
        cases List.mem_cons.1 hl with
        | inl h =>
          subst h
          have hsum := wrapStep_fst_sum_le width (c :: cs) started hw
          simpa [List.length_flatten, sumLen] using hsum
        | inr h => exact ih _ _ l h

theorem keepNonBlank_mem_any : ∀ lines : List (List SegText),
    ∀ line ∈ keepNonBlank lines, line.any hasNonWs = true := by
  intro lines
  induction lines with
  | nil => intro line h; simp [keepNonBlank] at h
  | cons l rest ih =>
    intro line h
    by_cases hl : l.any hasNonWs
    · rw [keepNonBlank, if_pos hl] at h
      cases List.mem_cons.1 h with
      | inl heq => subst heq; exact hl
      | inr htl => exact ih line htl
    · rw [keepNonBlank, if_neg hl] at h
      exact ih line h

/-! ## Claim theorems -/

/-- C1: exiting a `capture_console` scope restores the observable
override (`get_console_output`) to exactly the value current immediately
before the scope was entered, for every body — including bodies that
raise and bodies that are themselves arbitrarily nested
`capture_console` scopes (the `body` quantifier ranges over all state
transitions, so any nesting depth is covered) — because the restore sits
in a `finally` block; the body's outcome is propagated unchanged. -/
theorem capture_console_restores (filelike : FileLike)
    (body : TermState → Except PyErr Unit × TermState) (s : TermState) :
    get_console_output (capture_console filelike body s).2 = get_console_output s ∧
    (capture_console filelike body s).2.localOutput = some (get_console_output s) ∧
    (capture_console filelike body s).1 =
      (body { s with localOutput := some (some filelike) }).1 :=
  ⟨rfl, rfl, rfl⟩

/-- C5: `get_console_output` is a pure read — it returns the state
unchanged and cannot raise (its type has no error component) — and in
any context whose `output` attribute was never set it returns `none`
("use default destination"). -/
theorem get_console_output_pure (s : TermState) :
    (get_console_output_op s).2 = s ∧
    (s.localOutput = none → (get_console_output_op s).1 = none) := by
  refine ⟨rfl, ?_⟩
  intro h
  simp [get_console_output_op, get_console_output, h]

/-- Witness for C5 at the initial state, where the attribute was never
set. -/
theorem get_console_output_pure_witness :
    (get_console_output_op initState).2 = initState ∧
    (get_console_output_op initState).1 = none :=
  ⟨(get_console_output_pure initState).1, (get_console_output_pure initState).2 rfl⟩

/-- C6: every `console` call performs exactly one backend print with the
destination set to the calling context's current override, and
afterwards — whatever the backend's outcome, success or raise (`printImpl`
is universally quantified) — `rich_console.file` is back to `none`, so
an override never carries over into a later call; the context's own
override attribute is untouched. -/
theorem console_no_stale_destination
    (printImpl : Option FileLike → String → Option PyErr) (text : String) (s : TermState) :
    (console printImpl text s).2.consoleFile = none ∧
    (console printImpl text s).2.printed = s.printed ++ [(get_console_output s, text)] ∧
    (console printImpl text s).2.localOutput = s.localOutput :=
  ⟨rfl, rfl, rfl⟩

/-- C7: when the backend write raises, `console` surfaces exactly that
error to its caller (the `finally` restore does not swallow it), and on
success `console` returns no value. -/
theorem console_propagates_errors
    (printImpl : Option FileLike → String → Option PyErr) (text : String) (s : TermState) :
    (∀ e, printImpl (get_console_output s) text = some e →
      (console printImpl text s).1 = Except.error e) ∧
    (printImpl (get_console_output s) text = none →
      (console printImpl text s).1 = Except.ok ()) := by
  constructor
  · intro e he
    simp [console, patchable_console, he]
  · intro hn
    simp [console, patchable_console, hn]

/-- Witness for C7: a backend whose write raises a broken-pipe error
surfaces exactly that error; a succeeding backend yields `ok`. -/
theorem console_propagates_errors_witness :
    (console (fun _ _ => some (PyErr.ioError "broken pipe")) "x" initState).1 =
      Except.error (PyErr.ioError "broken pipe") ∧
    (console (fun _ _ => none) "x" initState).1 = Except.ok () :=
  ⟨(console_propagates_errors (fun _ _ => some (PyErr.ioError "broken pipe")) "x" initState).1
      (PyErr.ioError "broken pipe") rfl,
   (console_propagates_errors (fun _ _ => none) "x" initState).2 rfl⟩

/-- C2 counterexample: constructing a `TerminalTable` with the
unsupported style name `"fancy"` surfaces `KeyError('fancy')` from the
`TABLE_TYPES` dict lookup — not the `TerminalTableError` class, which
this module defines but never raises. -/
theorem invalid_table_type_cex :
    TerminalTable_init "fancy" [["h"]] none none none =
      Except.error (PyErr.keyError "fancy") ∧
    isTerminalTableError (PyErr.keyError "fancy") = false :=
  ⟨rfl, rfl⟩

/-- C2 amended: constructing a `TerminalTable` whose `table_type` is not
a key of `TABLE_TYPES` raises `KeyError(table_type)`, surfaced
immediately to the caller. -/
theorem invalid_table_type_keyerror (ty : String) (data : List (List String))
    (title : Option String) (wc dc : Option (List Nat))
    (h : lookupStyle ty = none) :
    TerminalTable_init ty data title wc dc = Except.error (PyErr.keyError ty) := by
  simp [TerminalTable_init, init_table, h]

/-- Witness for the amended C2 at the unknown style name `"fancy"`. -/
theorem invalid_table_type_keyerror_witness :
    TerminalTable_init "fancy" [["a"], ["b"]] (some "t") none none =
      Except.error (PyErr.keyError "fancy") :=
  invalid_table_type_keyerror "fancy" [["a"], ["b"]] (some "t") none none rfl

/-- C3 (code defect): `wrap_columns` and `drop_columns` are accepted by
`TerminalTable.__init__` but never read, so construction produces the
identical object for any two values of these arguments — no column is
ever word-wrapped or dropped on their account, contradicting the class
docstring that promises wrapping and dropping when the table does not
fit the terminal. -/
theorem wrap_drop_columns_ignored (ty : String) (data : List (List String))
    (title : Option String) (wc1 dc1 wc2 dc2 : Option (List Nat)) :
    TerminalTable_init ty data title wc1 dc1 = TerminalTable_init ty data title wc2 dc2 :=
  rfl

/-- C4: when `len(text) >= W` every line produced by `word_wrap(text, W)`
(the entries of `wrap(text, W)`, which `word_wrap` joins with
newlines) has length at most `W`; when `len(text) < W` the text is
returned unchanged. -/
theorem word_wrap_spec (text : String) (W : Nat) :
    (W ≤ text.length → ∀ ls, pyWrap W text.data = Except.ok ls →
      word_wrap text W = Except.ok (String.mk (List.intercalate ['\n'] ls)) ∧
      ∀ l ∈ ls, l.length ≤ W) ∧
    (text.length < W → word_wrap text W = Except.ok text) := by
  constructor
  · intro hW ls hok
    have hW0 : W ≠ 0 := by
      intro h
      subst h
      simp [pyWrap] at hok
    constructor
    · simp [word_wrap, hW, hok]
    · intro l hl
      have hls : wrapLoop W
          (sumLen (splitChunks (mungeWhitespace text.data)) +
            (splitChunks (mungeWhitespace text.data)).length + 1)
          (splitChunks (mungeWhitespace text.data)) false = ls := by
        simpa [pyWrap, hW0] using hok
      rw [← hls] at hl
      exact wrapLoop_line_le W (by omega) _ _ _ l hl
  · intro h
    have hnot : ¬ W ≤ text.length := by omega
    simp [word_wrap, hnot]

/-- Witness for C4: `word_wrap "hello world" 5` wraps into two lines of
length 5, and `word_wrap "hi" 5` returns the text unchanged. -/
theorem word_wrap_spec_witness :
    word_wrap "hello world" 5 =
      Except.ok (String.mk (List.intercalate ['\n']
        [['h', 'e', 'l', 'l', 'o'], ['w', 'o', 'r', 'l', 'd']])) ∧
    List.length ['h', 'e', 'l', 'l', 'o'] ≤ 5 ∧
    word_wrap "hi" 5 = Except.ok "hi" := by
  have h := (word_wrap_spec "hello world" 5).1 (by decide)
    [['h', 'e', 'l', 'l', 'o'], ['w', 'o', 'r', 'l', 'd']] rfl
  exact ⟨h.1, h.2 ['h', 'e', 'l', 'l', 'o'] (by simp),
    (word_wrap_spec "hi" 5).2 (by decide)⟩

/-- C8: every line yielded by the porcelain/github rendering of
`TerminalTable.__rich_console__` contains at least one segment with
non-whitespace text, whatever segment stream the backend produced — in
particular for a table with only a header row and one data row. -/
theorem porcelain_no_blank_lines (segments : List SegText) :
    ∀ line ∈ rich_console_lines segments, ∃ s ∈ line, hasNonWs s = true := by
  intro line h
  have hany := keepNonBlank_mem_any (split_lines [] segments) line h
  simpa [List.any_eq_true] using hany

/-- Witness for C8 on a backend stream for a header row and one data
row with a blank separator line: only the two non-blank lines survive. -/
theorem porcelain_no_blank_lines_witness :
    rich_console_lines
      ["Col1 | Col2".data, "\n".data, " ".data, "\n".data, "1 | 2".data, "\n".data] =
      [["Col1 | Col2".data], ["1 | 2".data]] ∧
    ∃ s ∈ ["1 | 2".data], hasNonWs s = true :=
  ⟨by decide,
   porcelain_no_blank_lines
     ["Col1 | Col2".data, "\n".data, " ".data, "\n".data, "1 | 2".data, "\n".data]
     ["1 | 2".data] (by decide)⟩

/-- C9: `colorize(color, text)` always returns the text wrapped in the
inline markup tags `[color]...[/]` — it never returns the bare text
(regardless of any TTY state, which the function does not consult). -/
theorem colorize_always_wraps (color text : String) :
    colorize color text = "[" ++ color ++ "]" ++ text ++ "[/]" ∧
    colorize color text ≠ text := by
  refine ⟨rfl, ?_⟩
  intro h
  have hlen := congrArg String.length h
  have h1 : ("[" : String).length = 1 := rfl
  have h2 : ("]" : String).length = 1 := rfl
  have h3 : ("[/]" : String).length = 3 := rfl
  simp only [colorize, String.length_append, h1, h2, h3] at hlen
  omega

/-- Witness for C9 at a concrete color and text: the markup tags are
present and the result is not the bare text. -/
theorem colorize_always_wraps_witness :
    colorize "red" "warn" = "[" ++ "red" ++ "]" ++ "warn" ++ "[/]" ∧
    colorize "red" "warn" ≠ "warn" :=
  colorize_always_wraps "red" "warn"

/-- C10: with a valid style, the first entry of `table_data` becomes the
column headers and the remaining entries the rows (`len(table_data) - 1`
of them), and an empty `table_data` raises `IndexError` because
`table_data[0]` is indexed unconditionally. -/
theorem table_data_shape (ty : String) (st : TableStyle) (data : List (List String))
    (title : Option String) (wc dc : Option (List Nat))
    (h : lookupStyle ty = some st) :
    (∀ hd rest, data = hd :: rest →
      TerminalTable_init ty data title wc dc =
        Except.ok
          { title := title, table_data := data, type := ty,
            table := { title := title, style := st, columns := hd, rows := rest } } ∧
      rest.length = data.length - 1) ∧
    (data = [] → TerminalTable_init ty data title wc dc = Except.error PyErr.indexError) := by
  constructor
  · intro hd rest hdata
    subst hdata
    refine ⟨?_, by simp⟩
    simp [TerminalTable_init, init_table, h]
  · intro hdata
    subst hdata
    simp [TerminalTable_init, init_table, h]

/-- Witness for C10: a two-row `plain` table has the first row as
columns and one data row; an empty `table_data` raises `IndexError`. -/
theorem table_data_shape_witness :
    (TerminalTable_init "plain" [["c1", "c2"], ["a", "b"]] none none none =
      Except.ok
        { title := none, table_data := [["c1", "c2"], ["a", "b"]], type := "plain",
          table := { title := none, style := { box := BoxKind.asciiBox, show_edge := true },
                     columns := ["c1", "c2"], rows := [["a", "b"]] } } ∧
      List.length [["a", "b"]] = List.length [["c1", "c2"], ["a", "b"]] - 1) ∧
    TerminalTable_init "plain" [] none none none = Except.error PyErr.indexError :=
  ⟨(table_data_shape "plain" { box := BoxKind.asciiBox, show_edge := true }
      [["c1", "c2"], ["a", "b"]] none none none rfl).1 ["c1", "c2"] [["a", "b"]] rfl,
   (table_data_shape "plain" { box := BoxKind.asciiBox, show_edge := true }
      [] none none none rfl).2 rfl⟩

end Flexget
